import Mathlib

/-!
Verification of the user-ledger-buddy persistence and reporting layer.

The TypeScript source keeps two IndexedDB object stores, `users` (key path
`id`, unique index on `idNumber`) and `balances` (key path `id`, unique
composite index on `(userId, month)`), defined in `src/lib/database.ts`.
We embed the store as two in-memory lists in insertion order and translate
each operation of `DatabaseService`.  IndexedDB semantics modelled here:

* `IDBObjectStore.add` fails when the primary key or any unique index key
  collides with an existing record; on failure nothing is written.
* `IDBObjectStore.put` replaces the record with the same primary key (or
  inserts one), but still fails when a unique index key collides with a
  record under a *different* primary key.
* An unhandled request error aborts the whole transaction, rolling back
  every write made inside it (relevant for `importData`).

Timestamps (`Date`) are embedded as `Nat` millisecond values; monetary
amounts (JS `number` holding decimal quantities) are embedded as `ℚ`.
-/

/-- The `User` record from `src/lib/database.ts`. -/
structure User where
  id : String
  name : String
  phone : String
  address : String
  idNumber : String
  createdAt : Nat
deriving DecidableEq

/-- The `Balance` record from `src/lib/database.ts`. -/
structure Balance where
  id : String
  userId : String
  amount : ℚ
  month : String
  description : Option String
  createdAt : Nat
deriving DecidableEq

/-- The `ExportData` snapshot shape from `src/lib/database.ts`. -/
structure ExportData where
  users : List User
  balances : List Balance
  exportDate : Nat
deriving DecidableEq

/-- The two IndexedDB object stores of `UserBalanceDB`. -/
structure Store where
  users : List User
  balances : List Balance
deriving DecidableEq

/-- Errors surfaced by the store layer and the import UI. -/
inductive DBError where
  | constraintViolation
  | invalidFormat
deriving DecidableEq

/-- Caller-supplied fields of `addUser` (TypeScript Omit of the
generated `id` and `createdAt`). -/
structure UserFields where
  name : String
  phone : String
  address : String
  idNumber : String
deriving DecidableEq

/-- Caller-supplied fields of `addBalance` (TypeScript Omit of the
generated `id` and `createdAt`). -/
structure BalanceFields where
  userId : String
  amount : ℚ
  month : String
  description : Option String
deriving DecidableEq

/-- Models `IDBObjectStore.add` on the `users` store: fails iff the primary key
`id` or the unique index key `idNumber` collides. -/
def usersAdd (us : List User) (u : User) : Option (List User) :=
  if ∃ v ∈ us, v.id = u.id ∨ v.idNumber = u.idNumber then none
  else some (us ++ [u])

/-- Models `IDBObjectStore.add` on the `balances` store: fails iff the primary key
`id` or the unique composite index key `(userId, month)` collides. -/
def balancesAdd (bs : List Balance) (b : Balance) : Option (List Balance) :=
  if ∃ v ∈ bs, v.id = b.id ∨ (v.userId = b.userId ∧ v.month = b.month) then none
  else some (bs ++ [b])

/-- Models `IDBObjectStore.put` on the `balances` store: replaces the record whose
`id` matches (inserting when absent), but fails when a *different* record
already holds the same unique `(userId, month)` key. -/
def balancesPut (bs : List Balance) (b : Balance) : Option (List Balance) :=
  if ∃ v ∈ bs, v.id ≠ b.id ∧ v.userId = b.userId ∧ v.month = b.month then none
  else if ∃ v ∈ bs, v.id = b.id then
    some (bs.map fun v => if v.id = b.id then b else v)
  else some (bs ++ [b])

/-- Models `DatabaseService.addUser`: builds the new record by spreading the
supplied fields and adding a generated `id` (from `crypto.randomUUID`,
passed here as `newId`) and a `createdAt` timestamp (`new Date()`, passed
here as `now`), then `add`s it.  Returns the post state together with the
result the promise settles with.  `mkNewUser` is the record built by the
object spread `{ ...user, id: crypto.randomUUID(), createdAt: new Date() }`. -/
def mkNewUser (f : UserFields) (newId : String) (now : Nat) : User :=
  { id := newId, name := f.name, phone := f.phone, address := f.address,
    idNumber := f.idNumber, createdAt := now }

def addUser (s : Store) (f : UserFields) (newId : String) (now : Nat) :
    Store × Except DBError User :=
  match usersAdd s.users (mkNewUser f newId now) with
  | some us => ({ s with users := us }, .ok (mkNewUser f newId now))
  | none => (s, .error .constraintViolation)

/-- Models `DatabaseService.addBalance`: same shape as `addUser` over the
`balances` store. -/
def mkNewBalance (f : BalanceFields) (newId : String) (now : Nat) : Balance :=
  { id := newId, userId := f.userId, amount := f.amount, month := f.month,
    description := f.description, createdAt := now }

def addBalance (s : Store) (f : BalanceFields) (newId : String) (now : Nat) :
    Store × Except DBError Balance :=
  match balancesAdd s.balances (mkNewBalance f newId now) with
  | some bs => ({ s with balances := bs }, .ok (mkNewBalance f newId now))
  | none => (s, .error .constraintViolation)

/-- Models `DatabaseService.getAllUsers`. -/
def getAllUsers (s : Store) : List User := s.users

/-- Models `DatabaseService.getAllBalances`. -/
def getAllBalances (s : Store) : List Balance := s.balances

/-- Models `DatabaseService.getUserById`: `store.get(id)` resolved with
`request.result || null`. -/
def getUserById (s : Store) (id : String) : Option User :=
  s.users.find? fun u => u.id = id

/-- Models `DatabaseService.getBalancesByUserId`: getAll on the userId index. -/
def getBalancesByUserId (s : Store) (userId : String) : List Balance :=
  s.balances.filter fun b => b.userId = userId

/-- Models `DatabaseService.updateBalance`: `store.put(balance)`. -/
def updateBalance (s : Store) (b : Balance) : Store × Except DBError Balance :=
  match balancesPut s.balances b with
  | some bs => ({ s with balances := bs }, .ok b)
  | none => (s, .error .constraintViolation)

/-- Models `DatabaseService.exportData`: reads both collections and stamps the
snapshot with the current time. -/
def exportData (s : Store) (now : Nat) : ExportData :=
  { users := getAllUsers s, balances := getAllBalances s, exportDate := now }

/-- Sequence of `add` requests issued inside the import transaction,
starting from the cleared collection `acc`.  `none` models a request error,
which (being unhandled in `importData`) aborts the transaction. -/
def addAll {α : Type} (add : List α → α → Option (List α)) :
    List α → List α → Option (List α)
  | acc, [] => some acc
  | acc, x :: xs =>
    match add acc x with
    | some acc2 => addAll add acc2 xs
    | none => none

/-- Models `DatabaseService.importData`: one readwrite transaction over both
stores that clears them and re-`add`s every snapshot record.  If every
request succeeds the transaction commits and the store holds exactly the
snapshot; if any `add` fails the transaction aborts and IndexedDB rolls
back to the pre-import state. -/
def importData (d : ExportData) (s : Store) : Store × Except DBError Unit :=
  match addAll usersAdd [] d.users, addAll balancesAdd [] d.balances with
  | some us, some bs => ({ users := us, balances := bs }, .ok ())
  | _, _ => (s, .error .constraintViolation)

/-!
## Aggregation / Reporting (`Reports` component)

From the unnamed source file holding the `Reports` component: per-user
summaries, the grand total, and the recent-entries table.
-/

/-- The filter `balances.filter(b => b.userId === user.id)` inside `Reports`. -/
def userBalancesOf (u : User) (balances : List Balance) : List Balance :=
  balances.filter fun b => b.userId = u.id

/-- The reduction `userBalances.reduce((sum, b) => sum + b.amount, 0)`.
Caution: the source reduces IEEE-754 doubles, whose addition rounds and is
not associative; this embedding folds exact rational addition instead, so
theorems about the numeric value of this fold would hold of the
idealization, not necessarily of the program.  No claim theorem below
depends on it. -/
def userTotalBalance (u : User) (balances : List Balance) : ℚ :=
  (userBalancesOf u balances).foldl (fun sum b => sum + b.amount) 0

/-- The count `userBalances.length`. -/
def userBalanceCount (u : User) (balances : List Balance) : Nat :=
  (userBalancesOf u balances).length

/-- The JS descending comparator
`(a, b) => new Date(b.createdAt).getTime() - new Date(a.createdAt).getTime()`
used with the stable `Array.prototype.sort`: `a` stays before `b` exactly
when `b.createdAt ≤ a.createdAt`. -/
def createdDescLe (a b : Balance) : Bool :=
  decide (b.createdAt ≤ a.createdAt)

/-- A stable sort by `createdAt` descending, as performed by
`.sort((a, b) => ...getTime() - ...getTime())` on the balances array. -/
def sortByCreatedDesc (bs : List Balance) : List Balance :=
  bs.mergeSort createdDescLe

/-- The expression `userBalances.sort(...)[0] || null` inside `Reports`:
the balance of the user with the latest `createdAt`, or `none` when the
user has no balances. -/
def lastBalanceOf (u : User) (balances : List Balance) : Option Balance :=
  (sortByCreatedDesc (userBalancesOf u balances)).head?

/-- The reduction `balances.reduce((sum, b) => sum + b.amount, 0)`: the
grand total.  The same IEEE-754-to-rational caution as for
`userTotalBalance` applies; no claim theorem depends on it. -/
def grandTotal (balances : List Balance) : ℚ :=
  balances.foldl (fun sum b => sum + b.amount) 0

/-- The user cell of the recent-entries table:
the JSX expression reading `user?.name` with fallback "Unknown User",
after `users.find(u => u.id === balance.userId)`.
JS `||` falls back when the found name is the empty string as well. -/
def displayName (users : List User) (b : Balance) : String :=
  match users.find? (fun u => u.id = b.userId) with
  | some u => if u.name = "" then "Unknown User" else u.name
  | none => "Unknown User"

/-- The recent-entries view: `balances.sort(desc).slice(0, 10)` with each
entry resolved to its user cell text. -/
def recentEntries (users : List User) (balances : List Balance) :
    List (String × Balance) :=
  ((sortByCreatedDesc balances).take 10).map fun b => (displayName users b, b)

/-!
## Import UI (`DataManagement.handleImport`)

The import handler parses the chosen file as JSON, checks
`!data.users || !data.balances || !Array.isArray(data.users) ||
!Array.isArray(data.balances)` and throws (leaving the store untouched)
when the check fails; otherwise it calls `db.importData(data)`.  We embed
the parsed JSON as a JS value and the later field reads of the unchecked
cast `JSON.parse(text) as ExportData`.
-/

/-- A parsed JavaScript value (result of `JSON.parse`, plus `undefined`
for missing property reads). -/
inductive JSValue where
  | undefinedV
  | nullv
  | boolean (b : Bool)
  | number (q : ℚ)
  | string (s : String)
  | array (elems : List JSValue)
  | object (fields : List (String × JSValue))

/-- JS property access `v.k`: `undefined` on a missing key or a
non-object. -/
def JSValue.get (v : JSValue) (k : String) : JSValue :=
  match v with
  | .object fields =>
    match fields.find? (fun p => p.1 = k) with
    | some p => p.2
    | none => .undefinedV
  | _ => .undefinedV

/-- JS truthiness, as tested by `!data.users`. -/
def JSValue.truthy : JSValue → Bool
  | .undefinedV => false
  | .nullv => false
  | .boolean b => b
  | .number q => decide (q ≠ 0)
  | .string s => decide (s ≠ "")
  | .array _ => true
  | .object _ => true

/-- The JS `Array.isArray` test. -/
def JSValue.isArray : JSValue → Bool
  | .array _ => true
  | _ => false

/-- The validation guard of `handleImport`:
`!(!data.users || !data.balances || !Array.isArray(data.users) || !Array.isArray(data.balances))`. -/
def validateImport (data : JSValue) : Bool :=
  !(!(data.get "users").truthy || !(data.get "balances").truthy ||
    !(data.get "users").isArray || !(data.get "balances").isArray)

/-- Reading a string field off a parsed JS value, as the unchecked
TypeScript cast lets later code do. -/
def JSValue.asString : JSValue → String
  | .string s => s
  | _ => ""

/-- Reading a numeric field off a parsed JS value. -/
def JSValue.asRat : JSValue → ℚ
  | .number q => q
  | _ => 0

/-- Reading a timestamp field off a parsed JS value. -/
def JSValue.asNat : JSValue → Nat
  | .number q => q.num.toNat
  | _ => 0

/-- The user record the cast `as ExportData` reads out of one element of
`data.users`. -/
def decodeUser (v : JSValue) : User :=
  { id := (v.get "id").asString, name := (v.get "name").asString,
    phone := (v.get "phone").asString, address := (v.get "address").asString,
    idNumber := (v.get "idNumber").asString,
    createdAt := (v.get "createdAt").asNat }

/-- The balance record the cast `as ExportData` reads out of one element
of `data.balances`. -/
def decodeBalance (v : JSValue) : Balance :=
  { id := (v.get "id").asString, userId := (v.get "userId").asString,
    amount := (v.get "amount").asRat, month := (v.get "month").asString,
    description :=
      match v.get "description" with
      | .string s => some s
      | _ => none,
    createdAt := (v.get "createdAt").asNat }

/-- The `ExportData` the unchecked cast yields from the parsed JSON. -/
def decodeExportData (data : JSValue) : ExportData :=
  { users :=
      match data.get "users" with
      | .array xs => xs.map decodeUser
      | _ => []
    balances :=
      match data.get "balances" with
      | .array xs => xs.map decodeBalance
      | _ => []
    exportDate := (data.get "exportDate").asNat }

/-- Models `DataManagement.handleImport` after `JSON.parse` succeeded: the guard
throws `Invalid file format` before `db.importData` is ever called, so a
rejected input leaves the store exactly as it was. -/
def handleImport (data : JSValue) (s : Store) : Store × Except DBError Unit :=
  if validateImport data then importData (decodeExportData data) s
  else (s, .error .invalidFormat)

/-!
## Well-formedness

States reachable through the store operations respect the two unique
indexes and the primary keys; the uniqueness facts are what make a
re-import of an export succeed.
-/

/-- No two stored users share `id` or `idNumber`. -/
def usersWF (us : List User) : Prop :=
  us.Pairwise fun a b => a.id ≠ b.id ∧ a.idNumber ≠ b.idNumber

/-- No two stored balances share `id` or the `(userId, month)` pair. -/
def balancesWF (bs : List Balance) : Prop :=
  bs.Pairwise fun a b => a.id ≠ b.id ∧ ¬(a.userId = b.userId ∧ a.month = b.month)

/-- Both unique indexes hold. -/
def Store.WF (s : Store) : Prop :=
  usersWF s.users ∧ balancesWF s.balances

instance (us : List User) : Decidable (usersWF us) := by
  unfold usersWF; infer_instance

instance (bs : List Balance) : Decidable (balancesWF bs) := by
  unfold balancesWF; infer_instance

instance (s : Store) : Decidable s.WF := by
  unfold Store.WF; infer_instance

/-!
## Helper lemmas about the import loop
-/

/-- A successful run of the import loop appends exactly the imported
records, for any `add` that appends on success. -/
theorem addAll_eq_append {α : Type} (add : List α → α → Option (List α))
    (happ : ∀ acc x r, add acc x = some r → r = acc ++ [x]) :
    ∀ (l acc m : List α), addAll add acc l = some m → m = acc ++ l := by
  intro l
  induction l with
  | nil => intro acc m h; simpa [addAll] using h.symm
  | cons x xs ih =>
    intro acc m h
    simp only [addAll] at h
    cases hx : add acc x with
    | none => rw [hx] at h; exact absurd h (by simp)
    | some acc2 =>
      rw [hx] at h
      have h2 := ih acc2 m h
      rw [happ acc x acc2 hx] at h2
      simpa using h2

theorem usersAdd_append (acc : List User) (x : User) (r : List User)
    (h : usersAdd acc x = some r) : r = acc ++ [x] := by
  unfold usersAdd at h
  split at h
  · exact absurd h (by simp)
  · exact (Option.some_inj.mp h).symm

theorem balancesAdd_append (acc : List Balance) (x : Balance) (r : List Balance)
    (h : balancesAdd acc x = some r) : r = acc ++ [x] := by
  unfold balancesAdd at h
  split at h
  · exact absurd h (by simp)
  · exact (Option.some_inj.mp h).symm

/-- Re-inserting a duplicate-free user list into the cleared store
succeeds and reproduces it. -/
theorem addAll_usersAdd_of_wf (l : List User) :
    ∀ acc, usersWF (acc ++ l) → addAll usersAdd acc l = some (acc ++ l) := by
  induction l with
  | nil => intro acc _; simp [addAll]
  | cons x xs ih =>
    intro acc h
    have hcross := (List.pairwise_append.mp h).2.2
    have hnc : ¬ ∃ v ∈ acc, v.id = x.id ∨ v.idNumber = x.idNumber := by
      rintro ⟨v, hv, hor⟩
      have hr := hcross v hv x (by simp)
      rcases hor with h1 | h2
      · exact hr.1 h1
      · exact hr.2 h2
    have hstep : usersAdd acc x = some (acc ++ [x]) := by
      unfold usersAdd
      rw [if_neg hnc]
    have hshift : usersWF ((acc ++ [x]) ++ xs) := by
      rw [List.append_assoc]
      simpa using h
    calc addAll usersAdd acc (x :: xs)
        = addAll usersAdd (acc ++ [x]) xs := by simp [addAll, hstep]
      _ = some ((acc ++ [x]) ++ xs) := ih (acc ++ [x]) hshift
      _ = some (acc ++ x :: xs) := by simp

/-- Re-inserting a duplicate-free balance list into the cleared store
succeeds and reproduces it. -/
theorem addAll_balancesAdd_of_wf (l : List Balance) :
    ∀ acc, balancesWF (acc ++ l) → addAll balancesAdd acc l = some (acc ++ l) := by
  induction l with
  | nil => intro acc _; simp [addAll]
  | cons x xs ih =>
    intro acc h
    have hcross := (List.pairwise_append.mp h).2.2
    have hnc : ¬ ∃ v ∈ acc, v.id = x.id ∨ (v.userId = x.userId ∧ v.month = x.month) := by
      rintro ⟨v, hv, hor⟩
      have hr := hcross v hv x (by simp)
      rcases hor with h1 | h2
      · exact hr.1 h1
      · exact hr.2 h2
    have hstep : balancesAdd acc x = some (acc ++ [x]) := by
      unfold balancesAdd
      rw [if_neg hnc]
    have hshift : balancesWF ((acc ++ [x]) ++ xs) := by
      rw [List.append_assoc]
      simpa using h
    calc addAll balancesAdd acc (x :: xs)
        = addAll balancesAdd (acc ++ [x]) xs := by simp [addAll, hstep]
      _ = some ((acc ++ [x]) ++ xs) := ih (acc ++ [x]) hshift
      _ = some (acc ++ x :: xs) := by simp

/-!
## Claim theorems
-/

/-- C1: `importData` is all-or-nothing: for every snapshot and every prior
store state, afterward either both collections equal exactly the
users and balances of the snapshot (and the operation reports success), or some
insert failed, the transaction aborted, and the store is exactly the prior
state — never a mix. -/
theorem importData_all_or_nothing (d : ExportData) (s : Store) :
    importData d s = ({ users := d.users, balances := d.balances }, Except.ok ()) ∨
    importData d s = (s, Except.error DBError.constraintViolation) := by
  unfold importData
  cases hu : addAll usersAdd [] d.users with
  | none => right; rfl
  | some us =>
    cases hb : addAll balancesAdd [] d.balances with
    | none => right; rfl
    | some bs =>
      left
      have hus : us = d.users := by
        simpa using addAll_eq_append usersAdd usersAdd_append d.users [] us hu
      have hbs : bs = d.balances := by
        simpa using addAll_eq_append balancesAdd balancesAdd_append d.balances [] bs hb
      rw [hus, hbs]

/-- C2: on a well-formed store, `exportData` immediately followed by
`importData` of that snapshot restores the store exactly (in particular
`getAllUsers`/`getAllBalances` afterward equal, as sets, the pre-export
collections) and reports success. -/
theorem export_import_idempotent (s : Store) (t : Nat) (h : s.WF) :
    importData (exportData s t) s = (s, Except.ok ()) ∧
    getAllUsers (importData (exportData s t) s).1 = getAllUsers s ∧
    getAllBalances (importData (exportData s t) s).1 = getAllBalances s := by
  have hu : addAll usersAdd [] s.users = some s.users := by
    simpa using addAll_usersAdd_of_wf s.users [] (by simpa using h.1)
  have hb : addAll balancesAdd [] s.balances = some s.balances := by
    simpa using addAll_balancesAdd_of_wf s.balances [] (by simpa using h.2)
  have hmain : importData (exportData s t) s = (s, Except.ok ()) := by
    unfold importData exportData getAllUsers getAllBalances
    simp only [hu, hb]
  exact ⟨hmain, by rw [hmain], by rw [hmain]⟩

/-- Witness for C2 at a concrete two-user, two-balance store. -/
theorem export_import_idempotent_witness :
    importData
        (exportData
          { users := [{ id := "u1", name := "Ann", phone := "1", address := "a",
                        idNumber := "111", createdAt := 1 },
                      { id := "u2", name := "Bob", phone := "2", address := "b",
                        idNumber := "222", createdAt := 2 }],
            balances := [{ id := "b1", userId := "u1", amount := 100, month := "2024-01",
                           description := none, createdAt := 3 },
                         { id := "b2", userId := "u1", amount := 50, month := "2024-02",
                           description := some "x", createdAt := 4 }] } 9)
        { users := [{ id := "u1", name := "Ann", phone := "1", address := "a",
                      idNumber := "111", createdAt := 1 },
                    { id := "u2", name := "Bob", phone := "2", address := "b",
                      idNumber := "222", createdAt := 2 }],
          balances := [{ id := "b1", userId := "u1", amount := 100, month := "2024-01",
                         description := none, createdAt := 3 },
                       { id := "b2", userId := "u1", amount := 50, month := "2024-02",
                         description := some "x", createdAt := 4 }] } =
      ({ users := [{ id := "u1", name := "Ann", phone := "1", address := "a",
                     idNumber := "111", createdAt := 1 },
                   { id := "u2", name := "Bob", phone := "2", address := "b",
                     idNumber := "222", createdAt := 2 }],
         balances := [{ id := "b1", userId := "u1", amount := 100, month := "2024-01",
                        description := none, createdAt := 3 },
                      { id := "b2", userId := "u1", amount := 50, month := "2024-02",
                        description := some "x", createdAt := 4 }] }, Except.ok ()) :=
  (export_import_idempotent _ 9 (by decide)).1

/-- C3: when some stored user already carries the requested `idNumber`,
`addUser` fails with a constraint violation and the store (hence the user
collection and its size) is unchanged; with a fresh `idNumber` (and a
fresh generated id) it succeeds, appends, and returns the new user built
from the fields plus the generated `id` and `createdAt`. -/
theorem addUser_constraint_spec (s : Store) (f : UserFields) (newId : String)
    (now : Nat) (hfresh : ∀ u ∈ s.users, u.id ≠ newId) :
    ((∃ u ∈ s.users, u.idNumber = f.idNumber) →
      addUser s f newId now = (s, Except.error DBError.constraintViolation)) ∧
    ((¬ ∃ u ∈ s.users, u.idNumber = f.idNumber) →
      addUser s f newId now =
        ({ s with users := s.users ++
            [{ id := newId, name := f.name, phone := f.phone, address := f.address,
               idNumber := f.idNumber, createdAt := now }] },
         Except.ok { id := newId, name := f.name, phone := f.phone,
                     address := f.address, idNumber := f.idNumber,
                     createdAt := now })) := by
  constructor
  · rintro ⟨u, hu, hn⟩
    have hnone : usersAdd s.users (mkNewUser f newId now) = none := by
      unfold usersAdd
      rw [if_pos]
      exact ⟨u, hu, Or.inr hn⟩
    unfold addUser
    rw [hnone]
  · intro hno
    have hsome : usersAdd s.users (mkNewUser f newId now) =
        some (s.users ++ [mkNewUser f newId now]) := by
      unfold usersAdd
      rw [if_neg]
      rintro ⟨v, hv, h1 | h2⟩
      · exact hfresh v hv h1
      · exact hno ⟨v, hv, h2⟩
    unfold addUser
    rw [hsome]
    rfl

/-- Witness for C3: both branches at a one-user store. -/
theorem addUser_constraint_spec_witness :
    addUser { users := [{ id := "u1", name := "Ann", phone := "1", address := "a",
                          idNumber := "111", createdAt := 1 }], balances := [] }
        { name := "Bob", phone := "2", address := "b", idNumber := "111" } "u9" 5 =
      ({ users := [{ id := "u1", name := "Ann", phone := "1", address := "a",
                     idNumber := "111", createdAt := 1 }], balances := [] },
       Except.error DBError.constraintViolation) :=
  (addUser_constraint_spec _ _ _ _ (by decide)).1
    ⟨{ id := "u1", name := "Ann", phone := "1", address := "a",
       idNumber := "111", createdAt := 1 }, by simp, rfl⟩

/-- C4: when some stored balance already carries the requested
`(userId, month)` pair, `addBalance` fails with a constraint violation and
the store (hence the balance collection and its size) is unchanged; with a
pair not yet present (and a fresh generated id) it succeeds, appends, and
returns the new balance built from the fields plus the generated `id` and
`createdAt`. -/
theorem addBalance_constraint_spec (s : Store) (f : BalanceFields)
    (newId : String) (now : Nat) (hfresh : ∀ b ∈ s.balances, b.id ≠ newId) :
    ((∃ b ∈ s.balances, b.userId = f.userId ∧ b.month = f.month) →
      addBalance s f newId now = (s, Except.error DBError.constraintViolation)) ∧
    ((¬ ∃ b ∈ s.balances, b.userId = f.userId ∧ b.month = f.month) →
      addBalance s f newId now =
        ({ s with balances := s.balances ++
            [{ id := newId, userId := f.userId, amount := f.amount,
               month := f.month, description := f.description, createdAt := now }] },
         Except.ok { id := newId, userId := f.userId, amount := f.amount,
                     month := f.month, description := f.description,
                     createdAt := now })) := by
  constructor
  · rintro ⟨b, hb, hp⟩
    have hnone : balancesAdd s.balances (mkNewBalance f newId now) = none := by
      unfold balancesAdd
      rw [if_pos]
      exact ⟨b, hb, Or.inr hp⟩
    unfold addBalance
    rw [hnone]
  · intro hno
    have hsome : balancesAdd s.balances (mkNewBalance f newId now) =
        some (s.balances ++ [mkNewBalance f newId now]) := by
      unfold balancesAdd
      rw [if_neg]
      rintro ⟨v, hv, h1 | h2⟩
      · exact hfresh v hv h1
      · exact hno ⟨v, hv, h2⟩
    unfold addBalance
    rw [hsome]
    rfl

/-- Witness for C4: the duplicate-month branch at a one-balance store. -/
theorem addBalance_constraint_spec_witness :
    addBalance { users := [],
                 balances := [{ id := "b1", userId := "u1", amount := 100,
                                month := "2024-01", description := none,
                                createdAt := 3 }] }
        { userId := "u1", amount := 50, month := "2024-01", description := none }
        "b9" 7 =
      ({ users := [],
         balances := [{ id := "b1", userId := "u1", amount := 100,
                        month := "2024-01", description := none,
                        createdAt := 3 }] },
       Except.error DBError.constraintViolation) :=
  (addBalance_constraint_spec _ _ _ _ (by decide)).1
    ⟨{ id := "b1", userId := "u1", amount := 100, month := "2024-01",
       description := none, createdAt := 3 }, by simp, rfl, rfl⟩

theorem createdDescLe_trans (a b c : Balance)
    (hab : createdDescLe a b) (hbc : createdDescLe b c) : createdDescLe a c := by
  simp [createdDescLe] at *
  omega

theorem createdDescLe_total (a b : Balance) :
    createdDescLe a b || createdDescLe b a := by
  simp [createdDescLe]
  omega

/-- The recent-entries sort is pairwise descending in `createdAt`. -/
theorem sortByCreatedDesc_sorted (bs : List Balance) :
    (sortByCreatedDesc bs).Pairwise fun a b => b.createdAt ≤ a.createdAt := by
  have h := List.sorted_mergeSort
    (fun a b c => createdDescLe_trans a b c)
    (fun a b => createdDescLe_total a b) bs
  exact h.imp (by intro a b hab; simpa [createdDescLe] using hab)

/-- The recent-entries sort only permutes the balances. -/
theorem sortByCreatedDesc_perm (bs : List Balance) :
    (sortByCreatedDesc bs).Perm bs :=
  List.mergeSort_perm bs createdDescLe

/-- C6 (amended): the recent-entries view has at most 10 items, is sorted
by `createdAt` descending, draws its entries from the balance snapshot,
and resolves each entry against the user whose `id` equals its `userId` —
showing the fallback label "Unknown User" when no such user exists. -/
theorem recentEntries_spec (users : List User) (bs : List Balance) :
    (recentEntries users bs).length ≤ 10 ∧
    (recentEntries users bs).Pairwise
      (fun e1 e2 => e2.2.createdAt ≤ e1.2.createdAt) ∧
    (∀ e ∈ recentEntries users bs, e.2 ∈ bs ∧ e.1 = displayName users e.2) ∧
    (∀ e ∈ recentEntries users bs,
      ((users.find? fun u => u.id = e.2.userId) = none → e.1 = "Unknown User") ∧
      (∀ u, (users.find? fun u => u.id = e.2.userId) = some u →
        u.id = e.2.userId)) := by
  have hmem : ∀ e ∈ recentEntries users bs,
      e.2 ∈ bs ∧ e.1 = displayName users e.2 := by
    intro e he
    unfold recentEntries at he
    obtain ⟨b, hb, rfl⟩ := List.mem_map.mp he
    have hb2 : b ∈ sortByCreatedDesc bs := (List.take_sublist _ _).mem hb
    exact ⟨(sortByCreatedDesc_perm bs).mem_iff.mp hb2, rfl⟩
  refine ⟨?_, ?_, hmem, ?_⟩
  · unfold recentEntries
    rw [List.length_map]
    exact le_trans (List.length_take_le _ _) (le_refl 10)
  · unfold recentEntries
    rw [List.pairwise_map]
    exact ((sortByCreatedDesc_sorted bs).sublist (List.take_sublist _ _))
  · intro e he
    have hdisp := (hmem e he).2
    constructor
    · intro hnone
      rw [hdisp]
      unfold displayName
      rw [hnone]
    · intro u hu
      have := List.find?_some hu
      simpa using this

/-- C6 as frozen is false on the code: when the referenced user is absent
the user cell reads "Unknown User", not "Unknown". -/
theorem recentEntries_unknown_counterexample :
    recentEntries []
        [{ id := "b1", userId := "u1", amount := 100, month := "2024-01",
           description := none, createdAt := 1 }] =
      [("Unknown User",
        { id := "b1", userId := "u1", amount := 100, month := "2024-01",
          description := none, createdAt := 1 })] ∧
    "Unknown User" ≠ "Unknown" := by
  constructor
  · simp [recentEntries, sortByCreatedDesc, displayName]
  · decide

/-- C8: the reported last entry for a user is one of the balances of that user
and carries the latest `createdAt` among them (ties broken
deterministically by the stable sort), and it is `none` exactly when the
user has no balances. -/
theorem lastBalanceOf_spec (u : User) (bs : List Balance) :
    (userBalancesOf u bs = [] → lastBalanceOf u bs = none) ∧
    (userBalancesOf u bs ≠ [] → ∃ b, lastBalanceOf u bs = some b) ∧
    (∀ b, lastBalanceOf u bs = some b →
      b ∈ userBalancesOf u bs ∧
      ∀ c ∈ userBalancesOf u bs, c.createdAt ≤ b.createdAt) := by
  refine ⟨?_, ?_, ?_⟩
  · intro h
    unfold lastBalanceOf
    rw [h]
    simp [sortByCreatedDesc]
  · intro h
    cases hs : sortByCreatedDesc (userBalancesOf u bs) with
    | nil =>
      have := (sortByCreatedDesc_perm (userBalancesOf u bs)).length_eq
      rw [hs] at this
      exact absurd (List.length_eq_zero.mp this.symm) h
    | cons x t =>
      refine ⟨x, ?_⟩
      unfold lastBalanceOf
      rw [hs]
      rfl
  · intro b hb
    cases hs : sortByCreatedDesc (userBalancesOf u bs) with
    | nil =>
      unfold lastBalanceOf at hb
      rw [hs] at hb
      exact absurd hb (by simp)
    | cons x t =>
      unfold lastBalanceOf at hb
      rw [hs] at hb
      have hbx : x = b := by simpa using hb
      subst hbx
      have hperm := sortByCreatedDesc_perm (userBalancesOf u bs)
      rw [hs] at hperm
      have hsorted := sortByCreatedDesc_sorted (userBalancesOf u bs)
      rw [hs] at hsorted
      constructor
      · exact hperm.mem_iff.mp (by simp)
      · intro c hc
        have hc2 : c ∈ x :: t := hperm.mem_iff.mpr hc
        rcases List.mem_cons.mp hc2 with rfl | hct
        · exact le_refl _
        · exact (List.pairwise_cons.mp hsorted).1 c hct

/-- Witness for C8: at a snapshot holding one balance of the user and one
of another user, the last entry is the single balance of the user. -/
theorem lastBalanceOf_spec_witness :
    ({ id := "b1", userId := "u1", amount := 100, month := "2024-01",
       description := none, createdAt := 3 } : Balance) ∈
      userBalancesOf
        { id := "u1", name := "Ann", phone := "1", address := "a",
          idNumber := "111", createdAt := 1 }
        [{ id := "b1", userId := "u1", amount := 100, month := "2024-01",
           description := none, createdAt := 3 },
         { id := "b9", userId := "u2", amount := 7, month := "2024-01",
           description := none, createdAt := 9 }] ∧
    ∀ c ∈ userBalancesOf
        { id := "u1", name := "Ann", phone := "1", address := "a",
          idNumber := "111", createdAt := 1 }
        [{ id := "b1", userId := "u1", amount := 100, month := "2024-01",
           description := none, createdAt := 3 },
         { id := "b9", userId := "u2", amount := 7, month := "2024-01",
           description := none, createdAt := 9 }],
      c.createdAt ≤
        ({ id := "b1", userId := "u1", amount := 100, month := "2024-01",
           description := none, createdAt := 3 } : Balance).createdAt :=
  (lastBalanceOf_spec _ _).2.2 _ (by
    have hf : userBalancesOf
        { id := "u1", name := "Ann", phone := "1", address := "a",
          idNumber := "111", createdAt := 1 }
        [{ id := "b1", userId := "u1", amount := 100, month := "2024-01",
           description := none, createdAt := 3 },
         { id := "b9", userId := "u2", amount := 7, month := "2024-01",
           description := none, createdAt := 9 }] =
        [{ id := "b1", userId := "u1", amount := 100, month := "2024-01",
           description := none, createdAt := 3 }] := by decide
    unfold lastBalanceOf
    rw [hf]
    simp [sortByCreatedDesc])

/-- An array is truthy in JS, so the `!data.users` / `!data.balances`
checks are subsumed by the `Array.isArray` checks. -/
theorem truthy_of_isArray (v : JSValue) (h : v.isArray = true) :
    v.truthy = true := by
  cases v <;> simp_all [JSValue.isArray, JSValue.truthy]

/-- The `handleImport` guard passes exactly when both `users` and
`balances` are present as arrays. -/
theorem validateImport_iff (data : JSValue) :
    validateImport data = true ↔
      ((data.get "users").isArray = true ∧
       (data.get "balances").isArray = true) := by
  cases hu : (data.get "users").isArray <;>
    cases hb : (data.get "balances").isArray <;>
      simp_all [validateImport, truthy_of_isArray]

/-- C7: an import input lacking `users` or `balances` as sequences is
rejected with the invalid-format error before any write, leaving the
store untouched; an input carrying both as sequences passes the guard and
proceeds to the replace operation. -/
theorem handleImport_format_spec (data : JSValue) (s : Store) :
    (¬((data.get "users").isArray = true ∧
       (data.get "balances").isArray = true) →
      handleImport data s = (s, Except.error DBError.invalidFormat)) ∧
    (((data.get "users").isArray = true ∧
      (data.get "balances").isArray = true) →
      validateImport data = true ∧
      handleImport data s = importData (decodeExportData data) s) := by
  constructor
  · intro h
    have hv : validateImport data = false := by
      cases hvv : validateImport data
      · rfl
      · exact absurd ((validateImport_iff data).mp hvv) h
    unfold handleImport
    rw [hv]
    rfl
  · intro h
    have hv : validateImport data = true := (validateImport_iff data).mpr h
    refine ⟨hv, ?_⟩
    unfold handleImport
    rw [hv]
    rfl

/-- Witness for C7: an input with both fields as (empty) arrays passes the
guard and reaches the replace operation. -/
theorem handleImport_format_spec_witness :
    validateImport
        (JSValue.object [("users", JSValue.array []),
                         ("balances", JSValue.array [])]) = true ∧
    handleImport
        (JSValue.object [("users", JSValue.array []),
                         ("balances", JSValue.array [])])
        { users := [{ id := "u1", name := "Ann", phone := "1", address := "a",
                      idNumber := "111", createdAt := 1 }], balances := [] } =
      importData
        (decodeExportData
          (JSValue.object [("users", JSValue.array []),
                           ("balances", JSValue.array [])]))
        { users := [{ id := "u1", name := "Ann", phone := "1", address := "a",
                      idNumber := "111", createdAt := 1 }], balances := [] } :=
  (handleImport_format_spec _ _).2 ⟨rfl, rfl⟩

/-- Witness for C6 (amended): with a matching user the entry resolves to
the name of that user. -/
theorem recentEntries_spec_witness :
    ({ id := "b1", userId := "u1", amount := 100, month := "2024-01",
       description := none, createdAt := 3 } : Balance) ∈
      [{ id := "b1", userId := "u1", amount := 100, month := "2024-01",
         description := none, createdAt := 3 }] ∧
    "Ann" = displayName
        [{ id := "u1", name := "Ann", phone := "1", address := "a",
           idNumber := "111", createdAt := 1 }]
        { id := "b1", userId := "u1", amount := 100, month := "2024-01",
          description := none, createdAt := 3 } :=
  (recentEntries_spec
      [{ id := "u1", name := "Ann", phone := "1", address := "a",
         idNumber := "111", createdAt := 1 }]
      [{ id := "b1", userId := "u1", amount := 100, month := "2024-01",
         description := none, createdAt := 3 }]).2.2.1
    ("Ann",
     { id := "b1", userId := "u1", amount := 100, month := "2024-01",
       description := none, createdAt := 3 })
    (by simp [recentEntries, sortByCreatedDesc, displayName])

/-- C9 as frozen is false on the code: `put` still enforces the unique
`(userId, month)` index, so `updateBalance` with a fresh id but a month
already taken by another record fails instead of inserting. -/
theorem updateBalance_counterexample :
    (∀ v ∈ ({ users := [],
              balances := [{ id := "b1", userId := "u1", amount := 100,
                             month := "2024-01", description := none,
                             createdAt := 3 }] } : Store).balances,
      v.id ≠ "b2") ∧
    updateBalance
        { users := [],
          balances := [{ id := "b1", userId := "u1", amount := 100,
                         month := "2024-01", description := none,
                         createdAt := 3 }] }
        { id := "b2", userId := "u1", amount := 50, month := "2024-01",
          description := none, createdAt := 4 } =
      ({ users := [],
         balances := [{ id := "b1", userId := "u1", amount := 100,
                        month := "2024-01", description := none,
                        createdAt := 3 }] },
       Except.error DBError.constraintViolation) := by
  constructor
  · intro v hv
    simp only [List.mem_singleton] at hv
    subst hv
    decide
  · rfl

/-- C9 (amended): `updateBalance(balance)` has upsert semantics — it
replaces the stored record whose id matches, succeeds by inserting when no
record with that id exists, and affects no other record — provided no
*different* stored record already holds the same `(userId, month)` pair;
when one does, the put violates the unique index, the call fails with a
constraint violation, and the store is unchanged. -/
theorem updateBalance_spec (s : Store) (b : Balance) :
    ((∃ v ∈ s.balances, v.id ≠ b.id ∧ v.userId = b.userId ∧ v.month = b.month) →
      updateBalance s b = (s, Except.error DBError.constraintViolation)) ∧
    (¬(∃ v ∈ s.balances, v.id ≠ b.id ∧ v.userId = b.userId ∧ v.month = b.month) →
      ((∃ v ∈ s.balances, v.id = b.id) →
        updateBalance s b =
          ({ s with balances := s.balances.map fun v => if v.id = b.id then b else v },
           Except.ok b)) ∧
      ((¬ ∃ v ∈ s.balances, v.id = b.id) →
        updateBalance s b = ({ s with balances := s.balances ++ [b] }, Except.ok b)) ∧
      (∀ v ∈ s.balances, v.id ≠ b.id → v ∈ (updateBalance s b).1.balances)) := by
  constructor
  · intro hconf
    have hput : balancesPut s.balances b = none := by
      unfold balancesPut
      rw [if_pos hconf]
    unfold updateBalance
    rw [hput]
  · intro hnc
    constructor
    · intro hex
      have hput : balancesPut s.balances b =
          some (s.balances.map fun v => if v.id = b.id then b else v) := by
        unfold balancesPut
        rw [if_neg hnc, if_pos hex]
      unfold updateBalance
      rw [hput]
    constructor
    · intro hno
      have hput : balancesPut s.balances b = some (s.balances ++ [b]) := by
        unfold balancesPut
        rw [if_neg hnc, if_neg hno]
      unfold updateBalance
      rw [hput]
    · intro v hv hne
      unfold updateBalance balancesPut
      rw [if_neg hnc]
      by_cases hex : ∃ v ∈ s.balances, v.id = b.id
      · rw [if_pos hex]
        refine List.mem_map.mpr ⟨v, hv, ?_⟩
        rw [if_neg hne]
      · rw [if_neg hex]
        exact List.mem_append_left _ hv

/-- Witness for C9 (amended): inserting a balance with a fresh id and a
fresh month appends it. -/
theorem updateBalance_spec_witness :
    updateBalance
        { users := [],
          balances := [{ id := "b1", userId := "u1", amount := 100,
                         month := "2024-01", description := none,
                         createdAt := 3 }] }
        { id := "b2", userId := "u1", amount := 50, month := "2024-02",
          description := none, createdAt := 4 } =
      ({ users := [],
         balances := [{ id := "b1", userId := "u1", amount := 100,
                        month := "2024-01", description := none,
                        createdAt := 3 },
                      { id := "b2", userId := "u1", amount := 50,
                        month := "2024-02", description := none,
                        createdAt := 4 }] },
       Except.ok { id := "b2", userId := "u1", amount := 50,
                   month := "2024-02", description := none,
                   createdAt := 4 }) :=
  ((updateBalance_spec _ _).2 (by decide)).2.1 (by decide)

/-- C10: a successful `addUser` or `addBalance` stores and returns the
caller-supplied field values verbatim; only the generated `id` and
`createdAt` are added, and the new record is appended after the existing
ones. -/
theorem add_fields_verbatim (s : Store) (f : UserFields) (g : BalanceFields)
    (uid bid : String) (t1 t2 : Nat) :
    (∀ u, (addUser s f uid t1).2 = Except.ok u →
      u.name = f.name ∧ u.phone = f.phone ∧ u.address = f.address ∧
      u.idNumber = f.idNumber ∧ u.id = uid ∧ u.createdAt = t1 ∧
      (addUser s f uid t1).1.users = s.users ++ [u]) ∧
    (∀ b, (addBalance s g bid t2).2 = Except.ok b →
      b.userId = g.userId ∧ b.amount = g.amount ∧ b.month = g.month ∧
      b.description = g.description ∧ b.id = bid ∧ b.createdAt = t2 ∧
      (addBalance s g bid t2).1.balances = s.balances ++ [b]) := by
  constructor
  · intro u hu
    unfold addUser at hu ⊢
    cases hadd : usersAdd s.users (mkNewUser f uid t1) with
    | none =>
      rw [hadd] at hu
      exact absurd hu (by simp)
    | some us =>
      simp only [hadd] at hu ⊢
      have hmk : mkNewUser f uid t1 = u := by simpa using hu
      subst hmk
      exact ⟨rfl, rfl, rfl, rfl, rfl, rfl,
        by simpa using usersAdd_append _ _ _ hadd⟩
  · intro b hb
    unfold addBalance at hb ⊢
    cases hadd : balancesAdd s.balances (mkNewBalance g bid t2) with
    | none =>
      rw [hadd] at hb
      exact absurd hb (by simp)
    | some bs =>
      simp only [hadd] at hb ⊢
      have hmk : mkNewBalance g bid t2 = b := by simpa using hb
      subst hmk
      exact ⟨rfl, rfl, rfl, rfl, rfl, rfl,
        by simpa using balancesAdd_append _ _ _ hadd⟩

/-- Witness for C10: a fresh insert into the empty store carries the
supplied fields verbatim. -/
theorem add_fields_verbatim_witness :
    (mkNewUser { name := "Ann", phone := "1", address := "a",
                 idNumber := "111" } "u1" 1).name = "Ann" ∧
    (mkNewUser { name := "Ann", phone := "1", address := "a",
                 idNumber := "111" } "u1" 1).phone = "1" ∧
    (mkNewUser { name := "Ann", phone := "1", address := "a",
                 idNumber := "111" } "u1" 1).address = "a" ∧
    (mkNewUser { name := "Ann", phone := "1", address := "a",
                 idNumber := "111" } "u1" 1).idNumber = "111" ∧
    (mkNewUser { name := "Ann", phone := "1", address := "a",
                 idNumber := "111" } "u1" 1).id = "u1" ∧
    (mkNewUser { name := "Ann", phone := "1", address := "a",
                 idNumber := "111" } "u1" 1).createdAt = 1 ∧
    (addUser { users := [], balances := [] }
        { name := "Ann", phone := "1", address := "a", idNumber := "111" }
        "u1" 1).1.users =
      [] ++ [mkNewUser { name := "Ann", phone := "1", address := "a",
                         idNumber := "111" } "u1" 1] :=
  (add_fields_verbatim { users := [], balances := [] }
      { name := "Ann", phone := "1", address := "a", idNumber := "111" }
      { userId := "u1", amount := 50, month := "2024-02", description := none }
      "u1" "b1" 1 2).1
    (mkNewUser { name := "Ann", phone := "1", address := "a",
                 idNumber := "111" } "u1" 1) rfl
